import Mathlib

/-!
Shallow embedding of the spatial interpolation / aggregation core of the
climate_mortality repository, together with proofs settling the frozen
claims about its natural-language specification.

Python sources embedded here:
  * climate_mortality/utils/interpolation.py
  * climate_mortality/utils/annualized.py
  * climate_mortality/utils/connect_noaa_who.py
  * climate_mortality/utils/ascii_reader.py
  * climate_mortality/utils/noaa_reader.py

Modelling conventions:
  * pandas DataFrames become lists of structure values (one structure per
    row schema); float columns become rationals.
  * pandas `merge(left, right, on=k)` (inner join) becomes `mergeOn`: for
    every left row, every right row with an equal key, in left-then-right
    order.
  * raised Python exceptions become `Except PyErr`; `pandas.mean` of an
    empty column (float NaN) becomes `Option.none`.
  * stateful file output becomes an explicit value describing the file
    finally left on disk (`Option` of its data rows; `none` = the file is
    absent or was deleted).
-/

/-- Python exception kinds raised by the embedded code. -/
inductive PyErr where
  /-- TypeError, e.g. an unexpected keyword argument at a call site. -/
  | typeError (msg : String)
  /-- NameError: a name that is not bound in the enclosing scopes. -/
  | nameError (missing : String)
  /-- FileNotFoundError from opening a missing input file. -/
  | fileNotFoundError (path : String)
  /-- DataOutOfBoundsError(ValueError) from ascii_reader.check_bounds. -/
  | dataOutOfBoundsError
  /-- Plain ValueError, e.g. a malformed CSV header. -/
  | valueError
  /-- KeyError from a failed dict lookup. -/
  | keyError
deriving DecidableEq, Repr

/-- Python keyword-argument binding: a call `f(k1=..., k2=...)` succeeds
only when every keyword names a formal parameter of `f`; otherwise Python
raises `TypeError: f() got an unexpected keyword argument`. -/
def bindKwargs (params : List String) (kwargs : List String) :
    Except PyErr Unit :=
  if kwargs.all (fun k => params.contains k) then Except.ok ()
  else Except.error (PyErr.typeError "unexpected keyword argument")

/-- Python local-name resolution: reading a name that is not among the
bound local (or enclosing) names raises `NameError`. -/
def lookupLocal (boundNames : List String) (name : String) :
    Except PyErr Unit :=
  if boundNames.contains name then Except.ok ()
  else Except.error (PyErr.nameError name)

/-- pandas inner merge on a key: every left row is paired with every right
row carrying an equal key, left order outermost (matching
`pd.merge(left, right, on=key)` row production). -/
def mergeOn {α β κ : Type} [DecidableEq κ] (kl : α → κ) (kr : β → κ)
    (l : List α) (r : List β) : List (α × β) :=
  l.flatMap (fun a => (r.filter (fun b => kr b = kl a)).map (fun b => (a, b)))

/-- A row of an interpolated-grid DataFrame: columns
`LONGITUDE, LATITUDE, <var>` (interpolation.py writes one such CSV per
variable, year, month). -/
structure GridRow where
  LONGITUDE : ℚ
  LATITUDE : ℚ
  value : ℚ
deriving DecidableEq, Repr

/-- A row of the merged TAVG/PRCP frame used by the derived-variable
synthesizers, after the derived column has been assigned: columns
`LONGITUDE, LATITUDE, TAVG, PRCP, <derived>`. -/
structure DerivedRow where
  LONGITUDE : ℚ
  LATITUDE : ℚ
  TAVG : ℚ
  PRCP : ℚ
  derived : ℚ
deriving DecidableEq, Repr

/-- The formal parameter list of `interpolate_NOAA_map(var, year, month,
kind)` in interpolation.py (it has no `xi` parameter). -/
def interpolate_NOAA_map_params : List String :=
  ["var", "year", "month", "kind"]

/-- The keyword arguments used at the call sites
`interpolate_NOAA_map(var=..., year=year, month=month, kind=kind, xi=xi)`
inside `_interpolate_HUMID_points` and `_interpolate_HETSTRS_points`. -/
def derived_call_kwargs : List String :=
  ["var", "year", "month", "kind", "xi"]

/-- The local names bound inside `_interpolate_HETSTRS_points`
(parameters and assigned frames); `humid_df` is not among them. -/
def hetstrs_bound_names : List String :=
  ["year", "month", "kind", "xi", "tavg_df", "prcp_df", "hetstrs_df"]

/-- Embedding of `_interpolate_HUMID_points(year, month, kind, xi)`
(interpolation.py lines 60-80). The surrounding file system and scipy
interpolation are abstracted into `gridMap`, standing for
`interpolate_NOAA_map(var, year, month, kind)`. Each embedded call first
binds its keyword arguments against that function's parameter list, as
Python does; the call sites pass `xi=xi`, which is not a parameter. -/
def _interpolate_HUMID_points
    (gridMap : String → Nat → Nat → String → Except PyErr (List GridRow))
    (year month : Nat) (kind : String) (xi : List (ℚ × ℚ)) :
    Except PyErr (List DerivedRow) := do
  let _ ← bindKwargs interpolate_NOAA_map_params derived_call_kwargs
  let tavg_df ← gridMap "TAVG" year month kind
  let _ ← bindKwargs interpolate_NOAA_map_params derived_call_kwargs
  let prcp_df ← gridMap "PRCP" year month kind
  let humid_df := mergeOn (fun r => (r.LONGITUDE, r.LATITUDE))
    (fun r => (r.LONGITUDE, r.LATITUDE)) tavg_df prcp_df
  let _ := xi
  Except.ok (humid_df.map (fun p =>
    { LONGITUDE := p.1.LONGITUDE, LATITUDE := p.1.LATITUDE,
      TAVG := p.1.value, PRCP := p.2.value,
      derived := p.2.value * (p.1.value + 273.15) }))

/-- Embedding of `_interpolate_HETSTRS_points(year, month, kind, xi)`
(interpolation.py lines 83-110). Besides the same `xi=xi` keyword problem
at its two `interpolate_NOAA_map` call sites, its body reads the name
`humid_df`, which is never bound in this function (the merged frame is
named `hetstrs_df`), so `lookupLocal` is consulted before the read. -/
def _interpolate_HETSTRS_points
    (gridMap : String → Nat → Nat → String → Except PyErr (List GridRow))
    (year month : Nat) (kind : String) (xi : List (ℚ × ℚ)) :
    Except PyErr (List DerivedRow) := do
  let _ ← bindKwargs interpolate_NOAA_map_params derived_call_kwargs
  let tavg_df ← gridMap "TAVG" year month kind
  let _ ← bindKwargs interpolate_NOAA_map_params derived_call_kwargs
  let prcp_df ← gridMap "PRCP" year month kind
  let hetstrs_df := mergeOn (fun r => (r.LONGITUDE, r.LATITUDE))
    (fun r => (r.LONGITUDE, r.LATITUDE)) tavg_df prcp_df
  let _ := xi
  let _ ← lookupLocal hetstrs_bound_names "humid_df"
  Except.ok (hetstrs_df.map (fun p =>
    { LONGITUDE := p.1.LONGITUDE, LATITUDE := p.1.LATITUDE,
      TAVG := p.1.value, PRCP := p.2.value,
      derived := p.2.value * (p.1.value - 20) }))

/-! ## annualized.py: `annualize_NOAA` -/

/-- One row of the join accumulator inside `annualize_NOAA`: the key
columns together with the monthly value columns `<var>_1 .. <var>_m`
collected so far, in month order. -/
structure JoinedRow where
  LONGITUDE : ℚ
  LATITUDE : ℚ
  vals : List ℚ
deriving DecidableEq, Repr

/-- One row of an annualized-grid DataFrame: columns
`LONGITUDE, LATITUDE, min, mean, max` (the only columns left after
`annualize_NOAA` deletes the monthly component columns). -/
structure AnnualRow where
  LONGITUDE : ℚ
  LATITUDE : ℚ
  amin : ℚ
  amean : ℚ
  amax : ℚ
deriving DecidableEq, Repr

/-- The `(LONGITUDE, LATITUDE)` key of a monthly grid row. -/
def gridKey (r : GridRow) : ℚ × ℚ := (r.LONGITUDE, r.LATITUDE)

/-- The `(LONGITUDE, LATITUDE)` key of a join-accumulator row. -/
def joinedKey (j : JoinedRow) : ℚ × ℚ := (j.LONGITUDE, j.LATITUDE)

/-- The `(LONGITUDE, LATITUDE)` key of an annualized row. -/
def annualKey (a : AnnualRow) : ℚ × ℚ := (a.LONGITUDE, a.LATITUDE)

/-- The loop body of `annualize_NOAA`:
`base = pd.merge(left=base, right=additional, on=['LONGITUDE','LATITUDE'])`
with the new month's value column appended to the accumulated columns. -/
def joinMonth (base : List JoinedRow) (g : List GridRow) : List JoinedRow :=
  (mergeOn joinedKey gridKey base g).map
    (fun p => { LONGITUDE := p.1.LONGITUDE, LATITUDE := p.1.LATITUDE,
                vals := p.1.vals ++ [p.2.value] })

/-- Python `min(iterable)` over a row's monthly columns (raises on an
empty iterable; the 0 default is unreachable, since every joined row
carries at least the month-1 column). -/
def rowMin (l : List ℚ) : ℚ :=
  match l with
  | [] => 0
  | a :: t => t.foldl min a

/-- Python `max(iterable)` over a row's monthly columns. -/
def rowMax (l : List ℚ) : ℚ :=
  match l with
  | [] => 0
  | a :: t => t.foldl max a

/-- `numpy.mean` over a row's monthly columns: sum divided by count. -/
def rowMean (l : List ℚ) : ℚ := l.sum / l.length

/-- Embedding of `annualize_NOAA(var, year)` (annualized.py lines 62-97).
`months` holds the twelve monthly interpolated grids
`load_interpolated_NOAA(var, year, 1) .. (var, year, 12)` in month order
(file loading is a collaborator; the caller `annualize_all_NOAA` supplies
them). Month 1 seeds the frame; months 2..12 are inner-merged on
`['LONGITUDE','LATITUDE']`; then per-row `min`, `max`, `mean` columns are
assigned over the monthly columns and the monthly columns are deleted,
leaving exactly `LONGITUDE, LATITUDE, min, mean, max`. -/
def annualize_NOAA (months : List (List GridRow)) : List AnnualRow :=
  match months with
  | [] => []
  | m1 :: rest =>
    let base := m1.map (fun r =>
      ({ LONGITUDE := r.LONGITUDE, LATITUDE := r.LATITUDE,
         vals := [r.value] } : JoinedRow))
    let joined := rest.foldl joinMonth base
    joined.map (fun j =>
      { LONGITUDE := j.LONGITUDE, LATITUDE := j.LATITUDE,
        amin := rowMin j.vals, amean := rowMean j.vals,
        amax := rowMax j.vals })

/-! ## connect_noaa_who.py: `_spatial_climate_average`,
`_load_country_climate`, `_load_climate_year` -/

/-- A pandas column mean: `NaN` (modelled `none`) for an empty column,
otherwise sum over count. -/
def colMean (l : List ℚ) : Option ℚ :=
  if l = [] then none else some (l.sum / l.length)

/-- The dictionary returned by `_spatial_climate_average`:
`raw_df[...].mean().to_dict()`, one (possibly-NaN) mean per column of the
annualized frame. -/
structure SpatialAvg where
  LONGITUDE : Option ℚ
  LATITUDE : Option ℚ
  amin : Option ℚ
  amean : Option ℚ
  amax : Option ℚ
deriving DecidableEq, Repr

/-- The Boolean row filter of `_spatial_climate_average`
(connect_noaa_who.py line 83):
`(min_long <= LONGITUDE) & (LONGITUDE <= max_long) &
 (min_lat <= LATITUDE) & (LATITUDE <= max_lat)`. -/
def inBox (min_long max_long min_lat max_lat : ℚ) (r : AnnualRow) : Bool :=
  decide (min_long ≤ r.LONGITUDE) && decide (r.LONGITUDE ≤ max_long) &&
    decide (min_lat ≤ r.LATITUDE) && decide (r.LATITUDE ≤ max_lat)

/-- Embedding of `_spatial_climate_average(raw_df, points)`
(connect_noaa_who.py lines 72-84). Python's `min()`/`max()` over the
vertex generator raise on an empty sequence, hence the `none` result for
an empty vertex list; otherwise the vertex bounding box is expanded by 1
degree on each side, rows inside it are selected, and each column's mean
is returned. -/
def _spatial_climate_average (raw_df : List AnnualRow)
    (points : List (ℚ × ℚ)) : Option SpatialAvg :=
  match points with
  | [] => none
  | p :: ps =>
    let min_long := (ps.map Prod.fst).foldl min p.1 - 1
    let max_long := (ps.map Prod.fst).foldl max p.1 + 1
    let min_lat := (ps.map Prod.snd).foldl min p.2 - 1
    let max_lat := (ps.map Prod.snd).foldl max p.2 + 1
    let sel := raw_df.filter (inBox min_long max_long min_lat max_lat)
    some { LONGITUDE := colMean (sel.map AnnualRow.LONGITUDE),
           LATITUDE := colMean (sel.map AnnualRow.LATITUDE),
           amin := colMean (sel.map AnnualRow.amin),
           amean := colMean (sel.map AnnualRow.amean),
           amax := colMean (sel.map AnnualRow.amax) }

/-- One row of the per-variable country table produced by
`_load_country_climate`: columns `country, <var>_min, <var>_mean,
<var>_max` (values are column means, hence possibly NaN). -/
structure CountryRow where
  country : String
  cmin : Option ℚ
  cmean : Option ℚ
  cmax : Option ℚ
deriving DecidableEq, Repr

/-- Embedding of `_load_country_climate(var, year)` (connect_noaa_who.py
lines 87-106). The shapefile reader is abstracted into `shapes`, the list
of `(record.NAME, shape.points)` pairs, and the annualized CSV into
`annualized` (`load_annualized_NOAA(var, year)`). One output row is built
for every shapefile record, in order, from that record's spatial average;
a `none` from `_spatial_climate_average` (empty vertex list) is the
uncaught Python `ValueError`, collapsing the whole result to `none`. -/
def _load_country_climate : List (String × List (ℚ × ℚ)) →
    List AnnualRow → Option (List CountryRow)
  | [], _ => some []
  | s :: rest, annualized =>
    match _spatial_climate_average annualized s.2,
        _load_country_climate rest annualized with
    | some d, some out =>
      some ({ country := s.1, cmin := d.amin, cmean := d.amean,
              cmax := d.amax } :: out)
    | _, _ => none

/-- One row of the join accumulator inside `_load_climate_year`: the
`country` key plus the per-variable value columns gathered so far (the
`Year` column assigned at the end is not tracked; it never affects
country coverage). -/
structure CompositeRow where
  country : String
  cols : List (Option ℚ)
deriving DecidableEq, Repr

/-- The loop body of `_load_climate_year`:
`base = pd.merge(left=base, on='country', right=_load_country_climate(var, year))`. -/
def joinVariable (base : List CompositeRow) (t : List CountryRow) :
    List CompositeRow :=
  (mergeOn CompositeRow.country CountryRow.country base t).map
    (fun p => { country := p.1.country,
                cols := p.1.cols ++ [p.2.cmin, p.2.cmean, p.2.cmax] })

/-- Embedding of `_load_climate_year(year)` (connect_noaa_who.py lines
109-124). `tables` holds `_load_country_climate(var, year)` for the
sorted tracked variables, in order: the first seeds the frame and each
later one is inner-merged on `'country'`. -/
def _load_climate_year (tables : List (List CountryRow)) :
    List CompositeRow :=
  match tables with
  | [] => []
  | t :: rest =>
    let base := t.map (fun r =>
      ({ country := r.country, cols := [r.cmin, r.cmean, r.cmax] } :
        CompositeRow))
    rest.foldl joinVariable base

/-- The set of countries named by a per-variable country table. -/
def countrySetV (t : List CountryRow) : Finset String :=
  (t.map CountryRow.country).toFinset

/-- The set of countries named by a composite table. -/
def countrySetC (t : List CompositeRow) : Finset String :=
  (t.map CompositeRow.country).toFinset

/-- First concrete per-variable aggregate table for the C6 witness. -/
def tableA : List CountryRow :=
  [{ country := "Argentina", cmin := some 1, cmean := some 2,
     cmax := some 3 },
   { country := "Brazil", cmin := some 4, cmean := some 5,
     cmax := some 6 }]

/-- Second concrete per-variable aggregate table for the C6 witness. -/
def tableB : List CountryRow :=
  [{ country := "Brazil", cmin := some 7, cmean := some 8,
     cmax := some 9 }]

/-- Twelve concrete singleton monthly grids, all covering the single
lattice point (0, 0), with values 1..12, for the C5/C7 witnesses. -/
def monthGrids : List (List GridRow) :=
  [[{ LONGITUDE := 0, LATITUDE := 0, value := 1 }],
   [{ LONGITUDE := 0, LATITUDE := 0, value := 2 }],
   [{ LONGITUDE := 0, LATITUDE := 0, value := 3 }],
   [{ LONGITUDE := 0, LATITUDE := 0, value := 4 }],
   [{ LONGITUDE := 0, LATITUDE := 0, value := 5 }],
   [{ LONGITUDE := 0, LATITUDE := 0, value := 6 }],
   [{ LONGITUDE := 0, LATITUDE := 0, value := 7 }],
   [{ LONGITUDE := 0, LATITUDE := 0, value := 8 }],
   [{ LONGITUDE := 0, LATITUDE := 0, value := 9 }],
   [{ LONGITUDE := 0, LATITUDE := 0, value := 10 }],
   [{ LONGITUDE := 0, LATITUDE := 0, value := 11 }],
   [{ LONGITUDE := 0, LATITUDE := 0, value := 12 }]]

/-! ## ascii_reader.py: `check_bounds`, `asc_to_array`,
`asc_to_filtered_csv` -/

/-- The header block of an ESRI ASCII grid file, as parsed by the
`ASCIIFormat` class. The NODATA marker and numeric token parsing are
abstracted away: the data stream below is a list of `Option ℚ`, `none`
standing for a token equal to `fmt.null`. -/
structure ASCIIFormat where
  ncols : Nat
  nrows : Nat
  xllcorner : ℚ
  yllcorner : ℚ
  cellsize : ℚ
deriving DecidableEq, Repr

/-- `skip_this_ndx(xn, yn, xskip, yskip)` (ascii_reader.py line 79). -/
def skip_this_ndx (xn yn xskip yskip : Nat) : Bool :=
  decide (xn % (xskip + 1) > 0) || decide (yn % (yskip + 1) > 0)

/-- `skip_this_pos(xpos, ypos, xmin, xmax, ymin, ymax)` (ascii_reader.py
line 84). -/
def skip_this_pos (xpos ypos xmin xmax ymin ymax : ℚ) : Bool :=
  decide (xpos < xmin) || decide (xpos > xmax) || decide (ypos < ymin) ||
    decide (ypos > ymax)

/-- `check_bounds(value, dimension)` (ascii_reader.py lines 93-101):
returns `True` for a plausible value, raises `DataOutOfBoundsError`
otherwise — including for any dimension other than Celsius or mm. -/
def check_bounds (value : ℚ) (dimension : String) : Except PyErr Bool :=
  if dimension = "Celsius" then
    if -95 ≤ value ∧ value ≤ 65 then Except.ok true
    else Except.error PyErr.dataOutOfBoundsError
  else if dimension = "mm" then
    if 0 ≤ value ∧ value ≤ 30000 then Except.ok true
    else Except.error PyErr.dataOutOfBoundsError
  else Except.error PyErr.dataOutOfBoundsError

/-- The token-consuming `while` loop of `asc_to_array` (ascii_reader.py
lines 139-163), tracking the logical column `xn` and row `yn` and the
accumulated `data_array`. Null tokens only advance the indices; retained
tokens are scaled, bounds-checked (the first bad value raising
`DataOutOfBoundsError`) and appended as `(xpos, ypos, val)`. -/
def asc_loop (fmt : ASCIIFormat) (xskip yskip : Nat)
    (xmin xmax ymin ymax : ℚ) (dimension : String) (scale : ℚ) :
    List (Option ℚ) → Nat → Nat → List (ℚ × ℚ × ℚ) →
      Except PyErr (List (ℚ × ℚ × ℚ))
  | [], _, _, acc => Except.ok acc
  | t :: rest, xn, yn, acc =>
    let step : Except PyErr (List (ℚ × ℚ × ℚ)) :=
      match t with
      | none => Except.ok acc
      | some raw =>
        let xpos := fmt.xllcorner + (xn : ℚ) * fmt.cellsize
        let ypos := fmt.yllcorner + ((fmt.nrows : ℚ) - (yn : ℚ)) *
          fmt.cellsize
        if skip_this_ndx xn yn xskip yskip ||
            skip_this_pos xpos ypos xmin xmax ymin ymax then
          Except.ok acc
        else
          match check_bounds (raw * scale) dimension with
          | Except.error e => Except.error e
          | Except.ok _ => Except.ok (acc ++ [(xpos, ypos, raw * scale)])
    match step with
    | Except.error e => Except.error e
    | Except.ok acc' =>
      if xn + 1 = fmt.ncols then
        asc_loop fmt xskip yskip xmin xmax ymin ymax dimension scale
          rest 0 (yn + 1) acc'
      else
        asc_loop fmt xskip yskip xmin xmax ymin ymax dimension scale
          rest (xn + 1) yn acc'

/-- `asc_to_array(filepath, ...)` (ascii_reader.py lines 104-166), with
the already-opened file presented as its parsed header `fmt` and its
whitespace-delimited data token stream `tokens`. -/
def asc_to_array (fmt : ASCIIFormat) (tokens : List (Option ℚ))
    (xskip yskip : Nat) (xmin xmax ymin ymax : ℚ) (dimension : String)
    (scale : ℚ) : Except PyErr (List (ℚ × ℚ × ℚ)) :=
  asc_loop fmt xskip yskip xmin xmax ymin ymax dimension scale tokens 0 0 []

/-- Statement-side companion of `asc_loop`: the retained `(xpos, ypos,
val)` triples of the token stream — the same downsampling walk with no
bounds check. Used to phrase which values `check_bounds` will see. -/
def retained_loop (fmt : ASCIIFormat) (xskip yskip : Nat)
    (xmin xmax ymin ymax : ℚ) (scale : ℚ) :
    List (Option ℚ) → Nat → Nat → List (ℚ × ℚ × ℚ)
  | [], _, _ => []
  | t :: rest, xn, yn =>
    let here : List (ℚ × ℚ × ℚ) :=
      match t with
      | none => []
      | some raw =>
        let xpos := fmt.xllcorner + (xn : ℚ) * fmt.cellsize
        let ypos := fmt.yllcorner + ((fmt.nrows : ℚ) - (yn : ℚ)) *
          fmt.cellsize
        if skip_this_ndx xn yn xskip yskip ||
            skip_this_pos xpos ypos xmin xmax ymin ymax then []
        else [(xpos, ypos, raw * scale)]
    if xn + 1 = fmt.ncols then
      here ++ retained_loop fmt xskip yskip xmin xmax ymin ymax scale
        rest 0 (yn + 1)
    else
      here ++ retained_loop fmt xskip yskip xmin xmax ymin ymax scale
        rest (xn + 1) yn

/-- `DIMENSION_LOOKUP` (ascii_reader.py lines 32-38). -/
def DIMENSION_LOOKUP : List (String × String) :=
  [("prcp", "mm"), ("tmin", "Celsius"), ("tavg", "Celsius"),
   ("tmax", "Celsius"), ("value", "unknown")]

/-- `SCALE_LOOKUP` (ascii_reader.py lines 42-48). -/
def SCALE_LOOKUP : List (String × ℚ) :=
  [("prcp", 1), ("tmin", 1/10), ("tavg", 1/10), ("tmax", 1/10),
   ("value", 1)]

/-- Python `str.lower()` on the ASCII variable labels used here:
lower-case every character. -/
def pyLower (s : String) : String := String.mk (s.data.map Char.toLower)

/-- The output CSV of `asc_to_filtered_csv`: the header label and the
data rows, in write order. -/
structure CsvFile where
  label : String
  rows : List (ℚ × ℚ × ℚ)
deriving DecidableEq, Repr

/-- Embedding of `asc_to_filtered_csv(infile, outfile, ...)`
(ascii_reader.py lines 169-212). The dimension and scale lookups raise
`KeyError` for an unknown label (not caught); `DataOutOfBoundsError`
from `asc_to_array` is caught and the output file is skipped entirely
(`Option.none`); otherwise the complete file is written. -/
def asc_to_filtered_csv (fmt : ASCIIFormat) (tokens : List (Option ℚ))
    (xskip yskip : Nat) (label : String) (xmin xmax ymin ymax : ℚ) :
    Except PyErr (Option CsvFile) :=
  match DIMENSION_LOOKUP.lookup (pyLower label),
      SCALE_LOOKUP.lookup (pyLower label) with
  | some dimension, some scale =>
    (match asc_to_array fmt tokens xskip yskip xmin xmax ymin ymax
        dimension scale with
     | Except.error PyErr.dataOutOfBoundsError => Except.ok none
     | Except.error e => Except.error e
     | Except.ok arr => Except.ok (some { label := label, rows := arr }))
  | none, _ => Except.error PyErr.keyError
  | _, none => Except.error PyErr.keyError

/-! ## noaa_reader.py: `_to_be_written`, `_make_one_group`,
`_trim_open_csv` -/

/-- One row of a per-station NOAA CSV as produced by `csv.DictReader`:
the identifying columns plus the remaining (column, value) pairs. All
values are the raw CSV strings. -/
structure SourceRow where
  DATE : String
  LONGITUDE : String
  LATITUDE : String
  data : List (String × String)
deriving DecidableEq, Repr

/-- `_to_be_written(var, source_row, date_str)` (noaa_reader.py lines
79-85). -/
def _to_be_written (var : String) (source_row : SourceRow)
    (date_str : String) : Bool :=
  match source_row.data.lookup var with
  | none => false
  | some v => if v = "" then false else decide (source_row.DATE = date_str)

/-- The `f'{year}-{month:02}'` date string of `_make_one_group`. -/
def date_str_of (year month : Nat) : String :=
  toString year ++ "-" ++
    (if month < 10 then "0" ++ toString month else toString month)

/-- One data row of a grouped-by-period output CSV: columns
`LONGITUDE, LATITUDE, <var>` (raw CSV strings, as copied by
`writer.writerow`). -/
structure GroupRow where
  LONGITUDE : String
  LATITUDE : String
  value : String
deriving DecidableEq, Repr

/-- The rows written by `_make_one_group`: across the input files in
order, the rows passing `_to_be_written`, projected to the three output
columns. -/
def groupRows (var : String) (date_str : String)
    (sources : List (List SourceRow)) : List GroupRow :=
  sources.flatMap (fun rows =>
    (rows.filter (fun r => _to_be_written var r date_str)).map (fun r =>
      ({ LONGITUDE := r.LONGITUDE, LATITUDE := r.LATITUDE,
         value := (r.data.lookup var).getD "" } : GroupRow)))

/-- Embedding of `_make_one_group(source_dir, dest_dir, var, year,
month, source_list)` (noaa_reader.py lines 225-265). `sources` holds the
parsed rows of each input file of `source_list`, in order. The output
file is opened and rows passing `_to_be_written` are appended across all
input files; if `out_records` ends at zero the file is removed
(`Option.none`), so the value describes the file finally on disk. -/
def _make_one_group (var : String) (year month : Nat)
    (sources : List (List SourceRow)) : Option (List GroupRow) :=
  let out := groupRows var (date_str_of year month) sources
  if out.length = 0 then none else some out

/-- Embedding of `_trim_open_csv(source_file, output_name, min_date,
id_fields, data_fields)` (noaa_reader.py lines 96-141). The opened file
is presented as its header `source_fields` and parsed rows; the result
pairs the returned `(written, avail_data)` with the output file finally
on disk (`none` when no file was opened, or when the zero-row file was
removed). Rows are kept whole; `writerow` only projects columns and
never changes the row count. -/
def _trim_open_csv (source_fields : List String)
    (source_rows : List SourceRow) (min_date : String)
    (id_fields data_fields : List String) :
    Except PyErr ((Nat × List String) × Option (List SourceRow)) :=
  let missing_id := id_fields.filter (fun f => !source_fields.contains f)
  if missing_id ≠ [] then Except.error PyErr.valueError
  else
    let avail_data := source_fields.filter (fun f => data_fields.contains f)
    if avail_data = [] then Except.ok ((0, []), none)
    else
      let written := source_rows.filter (fun r => decide (min_date ≤ r.DATE))
      if written.length = 0 then Except.ok ((0, avail_data), none)
      else Except.ok ((written.length, avail_data), some written)

/-! ## Batch drivers: `interpolate_all_NOAA` (interpolation.py lines
141-171) and `annualize_all_NOAA` (annualized.py lines 100-123) -/

/-- `INTERPOLATION_COLUMNS = DATA_COLUMNS.union({'HUMID', 'HETSTRS'})`
(interpolation.py line 19); a Python set, listed here in source order of
`DATA_COLUMNS` followed by the two derived variables (set iteration
order is irrelevant to the claims proved below). -/
def INTERPOLATION_COLUMNS : List String :=
  ["EMNT", "PRCP", "TAVG", "EMXT", "TMAX", "TMIN", "HUMID", "HETSTRS"]

/-- The `(var, year, month)` units of work visited by
`interpolate_all_NOAA`: `range(1995, 2022)` years, `range(1, 13)`
months. -/
def interpolationUnits : List (String × Nat × Nat) :=
  INTERPOLATION_COLUMNS.flatMap (fun v =>
    (List.range' 1995 27).flatMap (fun y =>
      (List.range' 1 12).map (fun m => (v, y, m))))

/-- The `(var, year)` units of work visited by `annualize_all_NOAA`. -/
def annualizeUnits : List (String × Nat) :=
  INTERPOLATION_COLUMNS.flatMap (fun v =>
    (List.range' 1995 27).map (fun y => (v, y)))

/-- The shared per-unit body of both batch drivers:
`try: result = work(unit) except FileNotFoundError: print-and-skip
else: write output file`. The state is (skipped-units log, written
output files); any exception other than `FileNotFoundError` is uncaught
and aborts the whole batch. -/
def processUnit {υ ω : Type} (work : υ → Except PyErr ω)
    (st : List υ × List (υ × ω)) (u : υ) :
    Except PyErr (List υ × List (υ × ω)) :=
  match work u with
  | Except.ok w => Except.ok (st.1, st.2 ++ [(u, w)])
  | Except.error (PyErr.fileNotFoundError _) => Except.ok (st.1 ++ [u], st.2)
  | Except.error e => Except.error e

/-- The unit loop of a batch driver: process the units in order; a
caught `FileNotFoundError` only logs and skips, any other exception
escapes the loop and aborts the remaining units. -/
def runUnits {υ ω : Type} (work : υ → Except PyErr ω) :
    List υ → List υ × List (υ × ω) →
      Except PyErr (List υ × List (υ × ω))
  | [], st => Except.ok st
  | u :: t, st =>
    match processUnit work st u with
    | Except.ok st' => runUnits work t st'
    | Except.error e => Except.error e

/-- Embedding of `interpolate_all_NOAA(method)`: the nested loops over
variables, years and months, with `interpolate_NOAA` abstracted into
`work` (it reads the grouped files from disk). Returns the skipped-unit
log and the written interpolated-grid files. -/
def interpolate_all_NOAA
    (work : String × Nat × Nat → Except PyErr (List GridRow)) :
    Except PyErr (List (String × Nat × Nat) ×
      List ((String × Nat × Nat) × List GridRow)) :=
  runUnits work interpolationUnits ([], [])

/-- Embedding of `annualize_all_NOAA()`: the nested loops over variables
and years, with `annualize_NOAA`'s file loading abstracted into `work`.
Returns the skipped-unit log and the written annualized-grid files. -/
def annualize_all_NOAA
    (work : String × Nat → Except PyErr (List AnnualRow)) :
    Except PyErr (List (String × Nat) ×
      List ((String × Nat) × List AnnualRow)) :=
  runUnits work annualizeUnits ([], [])

/-- Does this unit's work end in `FileNotFoundError`? -/
def isMissingInput {ω : Type} (e : Except PyErr ω) : Bool :=
  match e with
  | Except.error (PyErr.fileNotFoundError _) => true
  | _ => false

/-- The successful payload of a unit's work, if any. -/
def okOutput {ω : Type} (e : Except PyErr ω) : Option ω :=
  match e with
  | Except.ok w => some w
  | _ => none

/-- The claim's wording of the Country Aggregator's spatial filter: the
row's coordinates satisfy `(min vertex longitude - 1) ≤ LONGITUDE ≤
(max vertex longitude + 1)` and likewise for latitude, each bound
phrased through the vertex that attains it. -/
def specInBox (points : List (ℚ × ℚ)) (r : AnnualRow) : Bool :=
  points.any (fun p => decide (p.1 - 1 ≤ r.LONGITUDE)) &&
    points.any (fun p => decide (r.LONGITUDE ≤ p.1 + 1)) &&
    points.any (fun p => decide (p.2 - 1 ≤ r.LATITUDE)) &&
    points.any (fun p => decide (r.LATITUDE ≤ p.2 + 1))

/-- Concrete AnnualGrid of the C3/C4 scenario, first row inside the
example box, second row far outside. -/
def exampleGrid : List AnnualRow :=
  [{ LONGITUDE := 5, LATITUDE := 5, amin := 1, amean := 2, amax := 3 },
   { LONGITUDE := 50, LATITUDE := 50, amin := 4, amean := 5, amax := 6 }]

/-- Concrete country boundary of the C3/C4 scenario. -/
def examplePoints : List (ℚ × ℚ) := [(0, 0), (0, 10), (10, 10), (10, 0)]

/-! ## Claim C4: countries with an empty bounding box -/

/-- Single far-away AnnualGrid row, outside the example boundary's
expanded bounding box. -/
def farGrid : List AnnualRow :=
  [{ LONGITUDE := 50, LATITUDE := 50, amin := 4, amean := 5, amax := 6 }]

/-- The claim's wording of the CMIP5 plausibility bounds: a temperature
lies in [-95, 65] degrees Celsius, a precipitation in [0, 30000] mm. -/
def inPhysicalBounds (dimension : String) (v : ℚ) : Prop :=
  (dimension = "Celsius" ∧ -95 ≤ v ∧ v ≤ 65) ∨
    (dimension = "mm" ∧ 0 ≤ v ∧ v ≤ 30000)

instance (dimension : String) (v : ℚ) :
    Decidable (inPhysicalBounds dimension v) := by
  unfold inPhysicalBounds
  infer_instance

/-- A one-column, one-row ASCII grid header for the C9 witness. -/
def fmt0 : ASCIIFormat :=
  { ncols := 1, nrows := 1, xllcorner := 0, yllcorner := 0, cellsize := 1 }

/-- One NOAA source row for the C10 witness, carrying a TAVG value for
January 1995. -/
def row0 : SourceRow :=
  { DATE := "1995-01", LONGITUDE := "10.0", LATITUDE := "20.0",
    data := [("TAVG", "5.0")] }

/-- The header of the C10 witness per-station CSV. -/
def trimFields0 : List String :=
  ["STATION", "DATE", "LATITUDE", "LONGITUDE", "TAVG"]

/-- The required id columns (`ID_COLUMNS`, noaa_reader.py lines 33-38),
as a list. -/
def idFields0 : List String := ["STATION", "DATE", "LATITUDE", "LONGITUDE"]

/-- The single data column requested in the C10 witness. -/
def dataFields0 : List String := ["TAVG"]

/-- Concrete per-unit interpolation for the C8 witness: exactly one
unit's grouped input file is missing; every other unit succeeds. -/
def workI0 : String × Nat × Nat → Except PyErr (List GridRow) :=
  fun u =>
    if u.1 = "TAVG" ∧ u.2.1 = 2000 ∧ u.2.2 = 5 then
      Except.error (PyErr.fileNotFoundError "TAVG2000-5.csv")
    else Except.ok []

/-- Concrete per-unit annualization for the C8 witness: exactly one
unit's interpolated input file is missing; every other unit succeeds. -/
def workA0 : String × Nat → Except PyErr (List AnnualRow) :=
  fun u =>
    if u.1 = "PRCP" ∧ u.2 = 1999 then
      Except.error (PyErr.fileNotFoundError "PRCP1999.csv")
    else Except.ok []

theorem bindKwargs_derived_err :
    bindKwargs interpolate_NOAA_map_params derived_call_kwargs =
      Except.error (PyErr.typeError "unexpected keyword argument") := rfl

/-! ## Claims C1 and C2: the derived-variable synthesizers -/

/-- C1: the claim says interpolating HUMID first interpolates TAVG and
PRCP onto the target lattice, inner-joins them on (LONGITUDE, LATITUDE)
and assigns `HUMID = PRCP * (TAVG + 273.15)`. On the code this fails for
every year, month, method and lattice: both `interpolate_NOAA_map` call
sites inside `_interpolate_HUMID_points` pass the keyword argument
`xi=xi`, but `interpolate_NOAA_map(var, year, month, kind)` has no `xi`
parameter, so Python raises `TypeError` before any interpolation, join
or formula evaluation happens. The spec states the clear intent (the
formula is present on interpolation.py lines 77-78); the call signature
is a code slip. -/
theorem interpolate_HUMID_points_raises_typeError
    (gridMap : String → Nat → Nat → String → Except PyErr (List GridRow))
    (year month : Nat) (kind : String) (xi : List (ℚ × ℚ)) :
    _interpolate_HUMID_points gridMap year month kind xi =
      Except.error (PyErr.typeError "unexpected keyword argument") := rfl

/-- C2: the claim says interpolating HETSTRS inner-joins the
independently interpolated TAVG and PRCP grids and assigns
`HETSTRS = PRCP * (TAVG - 20)`. On the code this fails for every input:
`_interpolate_HETSTRS_points` passes `xi=xi` to `interpolate_NOAA_map`,
which has no `xi` parameter, so Python raises `TypeError` at the first
call; and even past that, lines 107-108 read `humid_df`, a name never
bound in this function (the merged frame is `hetstrs_df`), which would
raise `NameError`. The formula itself matches the spec's intent. -/
theorem interpolate_HETSTRS_points_raises_typeError
    (gridMap : String → Nat → Nat → String → Except PyErr (List GridRow))
    (year month : Nat) (kind : String) (xi : List (ℚ × ℚ)) :
    _interpolate_HETSTRS_points gridMap year month kind xi =
      Except.error (PyErr.typeError "unexpected keyword argument") := rfl

/-! ## Claim C3: the Country Aggregator's bounding-box filter -/

theorem foldl_min_le_iff (l : List ℚ) (a c : ℚ) :
    l.foldl min a ≤ c ↔ a ≤ c ∨ ∃ x ∈ l, x ≤ c := by
  induction l generalizing a with
  | nil => simp
  | cons b t ih =>
    simp only [List.foldl_cons, ih, min_le_iff, List.mem_cons]
    constructor
    · rintro ((h | h) | ⟨x, hx, hxc⟩)
      · exact Or.inl h
      · exact Or.inr ⟨b, Or.inl rfl, h⟩
      · exact Or.inr ⟨x, Or.inr hx, hxc⟩
    · rintro (h | ⟨x, (rfl | hx), hxc⟩)
      · exact Or.inl (Or.inl h)
      · exact Or.inl (Or.inr hxc)
      · exact Or.inr ⟨x, hx, hxc⟩

theorem le_foldl_max_iff (l : List ℚ) (a c : ℚ) :
    c ≤ l.foldl max a ↔ c ≤ a ∨ ∃ x ∈ l, c ≤ x := by
  induction l generalizing a with
  | nil => simp
  | cons b t ih =>
    simp only [List.foldl_cons, ih, le_max_iff, List.mem_cons]
    constructor
    · rintro ((h | h) | ⟨x, hx, hxc⟩)
      · exact Or.inl h
      · exact Or.inr ⟨b, Or.inl rfl, h⟩
      · exact Or.inr ⟨x, Or.inr hx, hxc⟩
    · rintro (h | ⟨x, (rfl | hx), hxc⟩)
      · exact Or.inl (Or.inl h)
      · exact Or.inl (Or.inr hxc)
      · exact Or.inr ⟨x, hx, hxc⟩

theorem foldl_min_sub_one_le (l : List ℚ) (a c : ℚ) :
    l.foldl min a - 1 ≤ c ↔ a - 1 ≤ c ∨ ∃ x ∈ l, x - 1 ≤ c := by
  simp only [sub_le_iff_le_add, foldl_min_le_iff]

theorem le_foldl_max_add_one (l : List ℚ) (a c : ℚ) :
    c ≤ l.foldl max a + 1 ↔ c ≤ a + 1 ∨ ∃ x ∈ l, c ≤ x + 1 := by
  rw [show (c ≤ l.foldl max a + 1) ↔ (c - 1 ≤ l.foldl max a) from
    (sub_le_iff_le_add).symm, le_foldl_max_iff]
  simp only [sub_le_iff_le_add]

theorem inBox_eq_specInBox (p : ℚ × ℚ) (ps : List (ℚ × ℚ))
    (r : AnnualRow) :
    inBox ((ps.map Prod.fst).foldl min p.1 - 1)
      ((ps.map Prod.fst).foldl max p.1 + 1)
      ((ps.map Prod.snd).foldl min p.2 - 1)
      ((ps.map Prod.snd).foldl max p.2 + 1) r =
      specInBox (p :: ps) r := by
  rw [Bool.eq_iff_iff]
  simp only [inBox, specInBox, Bool.and_eq_true,
    decide_eq_true_eq, List.any_eq_true, List.mem_cons, List.mem_map,
    foldl_min_sub_one_le, le_foldl_max_add_one]
  constructor
  · rintro ⟨⟨⟨h1, h2⟩, h3⟩, h4⟩
    refine ⟨⟨⟨?_, ?_⟩, ?_⟩, ?_⟩
    · rcases h1 with h | ⟨x, ⟨q, hq, rfl⟩, hx⟩
      · exact ⟨p, Or.inl rfl, h⟩
      · exact ⟨q, Or.inr hq, hx⟩
    · rcases h2 with h | ⟨x, ⟨q, hq, rfl⟩, hx⟩
      · exact ⟨p, Or.inl rfl, h⟩
      · exact ⟨q, Or.inr hq, hx⟩
    · rcases h3 with h | ⟨x, ⟨q, hq, rfl⟩, hx⟩
      · exact ⟨p, Or.inl rfl, h⟩
      · exact ⟨q, Or.inr hq, hx⟩
    · rcases h4 with h | ⟨x, ⟨q, hq, rfl⟩, hx⟩
      · exact ⟨p, Or.inl rfl, h⟩
      · exact ⟨q, Or.inr hq, hx⟩
  · rintro ⟨⟨⟨⟨q1, hq1, h1⟩, ⟨q2, hq2, h2⟩⟩, ⟨q3, hq3, h3⟩⟩, ⟨q4, hq4, h4⟩⟩
    refine ⟨⟨⟨?_, ?_⟩, ?_⟩, ?_⟩
    · rcases hq1 with rfl | hq1
      · exact Or.inl h1
      · exact Or.inr ⟨q1.1, ⟨q1, hq1, rfl⟩, h1⟩
    · rcases hq2 with rfl | hq2
      · exact Or.inl h2
      · exact Or.inr ⟨q2.1, ⟨q2, hq2, rfl⟩, h2⟩
    · rcases hq3 with rfl | hq3
      · exact Or.inl h3
      · exact Or.inr ⟨q3.2, ⟨q3, hq3, rfl⟩, h3⟩
    · rcases hq4 with rfl | hq4
      · exact Or.inl h4
      · exact Or.inr ⟨q4.2, ⟨q4, hq4, rfl⟩, h4⟩

/-- Helper: on a nonempty vertex list, `_spatial_climate_average`
returns the per-column means of exactly the rows inside the expanded
vertex bounding box, with the filter phrased the claim's way. -/
theorem spatial_average_spec_aux (raw_df : List AnnualRow) (p : ℚ × ℚ)
    (ps : List (ℚ × ℚ)) :
    _spatial_climate_average raw_df (p :: ps) = some
      { LONGITUDE := colMean ((raw_df.filter (specInBox (p :: ps))).map
          AnnualRow.LONGITUDE),
        LATITUDE := colMean ((raw_df.filter (specInBox (p :: ps))).map
          AnnualRow.LATITUDE),
        amin := colMean ((raw_df.filter (specInBox (p :: ps))).map
          AnnualRow.amin),
        amean := colMean ((raw_df.filter (specInBox (p :: ps))).map
          AnnualRow.amean),
        amax := colMean ((raw_df.filter (specInBox (p :: ps))).map
          AnnualRow.amax) } := by
  have hfil : raw_df.filter
      (inBox ((ps.map Prod.fst).foldl min p.1 - 1)
        ((ps.map Prod.fst).foldl max p.1 + 1)
        ((ps.map Prod.snd).foldl min p.2 - 1)
        ((ps.map Prod.snd).foldl max p.2 + 1)) =
      raw_df.filter (specInBox (p :: ps)) :=
    List.filter_congr (fun r _ => inBox_eq_specInBox p ps r)
  simp only [_spatial_climate_average, hfil]

/-- C3: for every AnnualGrid and every nonempty vertex list, the Country
Aggregator selects exactly the grid rows inside the vertex bounding box
expanded by 1 degree on each side, and returns the arithmetic mean of
the selected rows' min, mean and max columns as the country's
min/mean/max (witness: for the boundary [(0,0),(0,10),(10,10),(10,0)]
and rows at (5,5,1,2,3) and (50,50,4,5,6) the resulting mean is
exactly 2). -/
theorem spatial_climate_average_selects_expanded_box
    (raw_df : List AnnualRow) (points : List (ℚ × ℚ))
    (hne : points ≠ []) :
    ∃ d, _spatial_climate_average raw_df points = some d ∧
      d.amin = colMean ((raw_df.filter (specInBox points)).map
        AnnualRow.amin) ∧
      d.amean = colMean ((raw_df.filter (specInBox points)).map
        AnnualRow.amean) ∧
      d.amax = colMean ((raw_df.filter (specInBox points)).map
        AnnualRow.amax) := by
  match points with
  | [] => exact absurd rfl hne
  | p :: ps =>
    exact ⟨_, spatial_average_spec_aux raw_df p ps, rfl, rfl, rfl⟩

/-- C3 witness: at the concrete boundary and grid, only the row at
(5, 5) is selected and the aggregated mean is exactly 2. -/
theorem spatial_climate_average_selects_expanded_box_witness :
    ∃ d, _spatial_climate_average exampleGrid examplePoints = some d ∧
      d.amean = some 2 := by
  obtain ⟨d, hd, _, hmean, _⟩ :=
    spatial_climate_average_selects_expanded_box exampleGrid
      examplePoints (by simp [examplePoints])
  have hsel : exampleGrid.filter (specInBox examplePoints) =
      [{ LONGITUDE := 5, LATITUDE := 5, amin := 1, amean := 2,
         amax := 3 }] := by
    simp only [exampleGrid, examplePoints, specInBox, List.filter,
      List.any_cons, List.any_nil]
    norm_num
  refine ⟨d, hd, ?_⟩
  rw [hmean, hsel]
  norm_num [colMean]

/-- Helper: the spatial average of a grid with no rows in the expanded
bounding box of a nonempty vertex list is the all-NaN dictionary. -/
theorem spatial_average_empty_box (raw_df : List AnnualRow) (p : ℚ × ℚ)
    (ps : List (ℚ × ℚ))
    (hempty : raw_df.filter (specInBox (p :: ps)) = []) :
    _spatial_climate_average raw_df (p :: ps) = some
      { LONGITUDE := none, LATITUDE := none, amin := none, amean := none,
        amax := none } := by
  have h := spatial_average_spec_aux raw_df p ps
  rw [hempty] at h
  simpa [colMean] using h

/-- Helper: `_load_country_climate` on a single shapefile record with a
defined spatial average produces exactly one row, built from that
average's min/mean/max entries. -/
theorem load_country_climate_single (name : String)
    (pts : List (ℚ × ℚ)) (ann : List AnnualRow) (d : SpatialAvg)
    (h : _spatial_climate_average ann pts = some d) :
    _load_country_climate [(name, pts)] ann =
      some [{ country := name, cmin := d.amin, cmean := d.amean,
              cmax := d.amax }] := by
  simp only [_load_country_climate, h]

/-- C4 counterexample: the claim says a country whose expanded bounding
box contains no AnnualGrid rows is absent from the aggregator's output.
On the code it is present: `_load_country_climate` builds one row per
shapefile record unconditionally, and `.mean()` of the empty filtered
frame yields NaN (`none`) values, so the country "Nowhere" gets a row
with NaN min/mean/max instead of no row. -/
theorem empty_box_country_row_present :
    _load_country_climate [("Nowhere", examplePoints)] farGrid =
      some [{ country := "Nowhere", cmin := none, cmean := none,
              cmax := none }] := by
  have hfil : farGrid.filter (specInBox examplePoints) = [] := by
    simp only [farGrid, examplePoints, specInBox, List.filter,
      List.any_cons, List.any_nil]
    norm_num
  exact load_country_climate_single "Nowhere" examplePoints farGrid _
    (spatial_average_empty_box farGrid (0, 0) [(0, 10), (10, 10), (10, 0)]
      hfil)

/-- C4 amended: if no AnnualGrid rows fall inside a country's expanded
bounding box, the aggregator's output still contains a row for that
country for that variable and year, but with NaN (missing) min, mean
and max values — not an absent row, and not zeros. -/
theorem empty_box_country_gets_nan_record
    (shapes : List (String × List (ℚ × ℚ))) (ann : List AnnualRow)
    (out : List CountryRow) (name : String) (pts : List (ℚ × ℚ))
    (hout : _load_country_climate shapes ann = some out)
    (hmem : (name, pts) ∈ shapes)
    (hempty : ann.filter (specInBox pts) = []) :
    ∃ r ∈ out, r.country = name ∧ r.cmin = none ∧ r.cmean = none ∧
      r.cmax = none := by
  induction shapes generalizing out with
  | nil => simp at hmem
  | cons s rest ih =>
    obtain ⟨sn, sp⟩ := s
    rw [List.mem_cons] at hmem
    cases havg : _spatial_climate_average ann sp with
    | none =>
      simp only [_load_country_climate, havg] at hout
      exact Option.noConfusion hout
    | some d =>
      cases hrest : _load_country_climate rest ann with
      | none =>
        simp only [_load_country_climate, havg, hrest] at hout
        exact Option.noConfusion hout
      | some out' =>
        simp only [_load_country_climate, havg, hrest,
          Option.some.injEq] at hout
        rcases hmem with heq | hmem'
        · injection heq with hn hp
          subst hn
          subst hp
          cases pts with
          | nil => simp [_spatial_climate_average] at havg
          | cons p ps =>
            have haux := spatial_average_spec_aux ann p ps
            rw [havg] at haux
            injection haux with hd
            refine ⟨⟨name, d.amin, d.amean, d.amax⟩, ?_, rfl, ?_, ?_, ?_⟩
            · rw [← hout]
              exact List.mem_cons_self _ _
            · simp [hd, hempty, colMean]
            · simp [hd, hempty, colMean]
            · simp [hd, hempty, colMean]
        · obtain ⟨r, hr, hprops⟩ := ih out' hrest hmem'
          refine ⟨r, ?_, hprops⟩
          rw [← hout]
          exact List.mem_cons_of_mem _ hr

/-- C4 witness for the amended claim: at the concrete boundary
[(0,0),(0,10),(10,10),(10,0)] and a grid whose only row lies at
(50, 50), the output contains a row for "Nowhere" whose min, mean and
max are all NaN. -/
theorem empty_box_country_gets_nan_record_witness :
    ∃ r ∈ [({ country := "Nowhere", cmin := none, cmean := none,
              cmax := none } : CountryRow)],
      r.country = "Nowhere" ∧ r.cmin = none ∧ r.cmean = none ∧
        r.cmax = none := by
  have hfil : farGrid.filter (specInBox examplePoints) = [] := by
    simp only [farGrid, examplePoints, specInBox, List.filter,
      List.any_cons, List.any_nil]
    norm_num
  exact empty_box_country_gets_nan_record [("Nowhere", examplePoints)]
    farGrid _ "Nowhere" examplePoints
    (load_country_climate_single "Nowhere" examplePoints farGrid _
      (spatial_average_empty_box farGrid (0, 0)
        [(0, 10), (10, 10), (10, 0)] hfil))
    (List.mem_cons_self _ _) hfil

/-! Claim C5 support: lattice coverage of the annual inner join. -/

theorem mem_keys_joinMonth (base : List JoinedRow) (g : List GridRow)
    (k : ℚ × ℚ) :
    k ∈ (joinMonth base g).map joinedKey ↔
      k ∈ base.map joinedKey ∧ k ∈ g.map gridKey := by
  simp only [joinMonth, mergeOn, List.mem_map, List.mem_flatMap,
    List.mem_filter, decide_eq_true_eq, joinedKey, gridKey]
  constructor
  · rintro ⟨x, ⟨pr, ⟨j, hj, r, ⟨hrg, hkey⟩, rfl⟩, rfl⟩, rfl⟩
    exact ⟨⟨j, hj, rfl⟩, ⟨r, hrg, hkey⟩⟩
  · rintro ⟨⟨j, hj, rfl⟩, r, hr, hkey⟩
    exact ⟨_, ⟨(j, r), ⟨j, hj, r, ⟨hr, hkey⟩, rfl⟩, rfl⟩, rfl⟩

theorem mem_keys_foldl_joinMonth (rest : List (List GridRow))
    (base : List JoinedRow) (k : ℚ × ℚ) :
    k ∈ (rest.foldl joinMonth base).map joinedKey ↔
      k ∈ base.map joinedKey ∧ ∀ g ∈ rest, k ∈ g.map gridKey := by
  induction rest generalizing base with
  | nil => simp
  | cons g rest ih =>
    simp only [List.foldl_cons, ih, mem_keys_joinMonth, List.mem_cons]
    constructor
    · rintro ⟨⟨hb, hg⟩, hrest⟩
      exact ⟨hb, fun g' hg' => by
        rcases hg' with rfl | hg'
        · exact hg
        · exact hrest g' hg'⟩
    · rintro ⟨hb, hall⟩
      exact ⟨⟨hb, hall g (Or.inl rfl)⟩, fun g' hg' => hall g' (Or.inr hg')⟩

theorem filter_gridKey_length_le_one (g : List GridRow)
    (hnd : (g.map gridKey).Nodup) (k : ℚ × ℚ) :
    (g.filter (fun b => decide (gridKey b = k))).length ≤ 1 := by
  induction g with
  | nil => simp
  | cons b t ih =>
    simp only [List.map_cons, List.nodup_cons] at hnd
    obtain ⟨hbk, hnd'⟩ := hnd
    simp only [List.filter_cons]
    by_cases hb : gridKey b = k
    · rw [if_pos (by simpa using hb)]
      have ht : t.filter (fun b => decide (gridKey b = k)) = [] := by
        rw [List.filter_eq_nil_iff]
        intro x hx
        simp only [decide_eq_true_eq]
        intro hxk
        exact hbk (List.mem_map.mpr ⟨x, hx, by rw [hxk, hb]⟩)
      simp [ht]
    · rw [if_neg (by simpa using hb)]
      exact ih hnd'

theorem joinMonth_length_le_left (base : List JoinedRow)
    (g : List GridRow) (hg : (g.map gridKey).Nodup) :
    (joinMonth base g).length ≤ base.length := by
  induction base with
  | nil => simp [joinMonth, mergeOn]
  | cons j t ih =>
    simp only [joinMonth, mergeOn, List.flatMap_cons, List.map_append,
      List.length_append, List.length_cons, List.map_map,
      List.length_map] at ih ⊢
    have h1 := filter_gridKey_length_le_one g hg (joinedKey j)
    omega

theorem keys_joinMonth_sublist (base : List JoinedRow)
    (g : List GridRow) (hg : (g.map gridKey).Nodup) :
    List.Sublist ((joinMonth base g).map joinedKey)
      (base.map joinedKey) := by
  induction base with
  | nil => simp [joinMonth, mergeOn]
  | cons j t ih =>
    have hsplit : (joinMonth (j :: t) g).map joinedKey =
        ((g.filter (fun b => decide (gridKey b = joinedKey j))).map
          (fun _ => joinedKey j)) ++ (joinMonth t g).map joinedKey := by
      simp only [joinMonth, mergeOn, List.flatMap_cons, List.map_append,
        List.map_map]
      rfl
    rw [hsplit, List.map_cons]
    rcases hfil : g.filter (fun b => decide (gridKey b = joinedKey j)) with
      _ | ⟨b, t'⟩
    · simp only [List.map_nil, List.nil_append]
      exact ih.cons _
    · have hlen := filter_gridKey_length_le_one g hg (joinedKey j)
      rw [hfil] at hlen
      simp only [List.length_cons] at hlen
      have ht' : t' = [] := List.length_eq_zero.mp (by omega)
      subst ht'
      have hstep : List.Sublist
          (joinedKey j :: (joinMonth t g).map joinedKey)
          (joinedKey j :: t.map joinedKey) := ih.cons₂ (joinedKey j)
      simpa using hstep

theorem joinMonth_length_le_right (base : List JoinedRow)
    (g : List GridRow) (hb : (base.map joinedKey).Nodup)
    (hg : (g.map gridKey).Nodup) :
    (joinMonth base g).length ≤ g.length := by
  have hnd : ((joinMonth base g).map joinedKey).Nodup :=
    ((keys_joinMonth_sublist base g hg).nodup hb)
  have hsub : ∀ k ∈ (joinMonth base g).map joinedKey, k ∈ g.map gridKey :=
    fun k hk => ((mem_keys_joinMonth base g k).mp hk).2
  calc (joinMonth base g).length
      = ((joinMonth base g).map joinedKey).length := by
        rw [List.length_map]
    _ = ((joinMonth base g).map joinedKey).toFinset.card := by
        rw [List.toFinset_card_of_nodup hnd]
    _ ≤ (g.map gridKey).toFinset.card := by
        apply Finset.card_le_card
        intro k hk
        rw [List.mem_toFinset] at hk ⊢
        exact hsub k hk
    _ ≤ (g.map gridKey).length := List.toFinset_card_le _
    _ = g.length := List.length_map _ _

theorem foldl_joinMonth_props (rest : List (List GridRow))
    (base : List JoinedRow) (hb : (base.map joinedKey).Nodup)
    (hrest : ∀ g ∈ rest, (g.map gridKey).Nodup) :
    ((rest.foldl joinMonth base).map joinedKey).Nodup ∧
      (rest.foldl joinMonth base).length ≤ base.length ∧
      ∀ g ∈ rest, (rest.foldl joinMonth base).length ≤ g.length := by
  induction rest generalizing base with
  | nil => exact ⟨hb, le_refl _, by simp⟩
  | cons g t ih =>
    have hg : (g.map gridKey).Nodup := hrest g (List.mem_cons_self _ _)
    have hb' : ((joinMonth base g).map joinedKey).Nodup :=
      (keys_joinMonth_sublist base g hg).nodup hb
    obtain ⟨h1, h2, h3⟩ := ih (joinMonth base g) hb'
      (fun g' hg' => hrest g' (List.mem_cons_of_mem _ hg'))
    refine ⟨h1, h2.trans (joinMonth_length_le_left base g hg), ?_⟩
    intro g' hg'
    rcases List.mem_cons.mp hg' with rfl | hg'
    · exact h2.trans (joinMonth_length_le_right base g' hb hg)
    · exact h3 g' hg'

/-- C5: for every variable and year whose twelve monthly interpolated
grids exist, each with distinct (LONGITUDE, LATITUDE) keys, the
Annualizer's output covers exactly the lattice points present in all
twelve monthly grids (the intersection of the coverages), so its row
count is at most every monthly grid's row count — in particular at most
the minimum. -/
theorem annualize_NOAA_coverage_intersection
    (months : List (List GridRow)) (h12 : months.length = 12)
    (hnd : ∀ g ∈ months, (g.map gridKey).Nodup) :
    (∀ k, k ∈ (annualize_NOAA months).map annualKey ↔
      ∀ g ∈ months, k ∈ g.map gridKey) ∧
    ∀ g ∈ months, (annualize_NOAA months).length ≤ g.length := by
  match months with
  | [] => simp at h12
  | m1 :: rest =>
    have hunfold : annualize_NOAA (m1 :: rest) =
        (rest.foldl joinMonth (m1.map (fun r =>
          ({ LONGITUDE := r.LONGITUDE, LATITUDE := r.LATITUDE,
             vals := [r.value] } : JoinedRow)))).map (fun j =>
          ({ LONGITUDE := j.LONGITUDE, LATITUDE := j.LATITUDE,
             amin := rowMin j.vals, amean := rowMean j.vals,
             amax := rowMax j.vals } : AnnualRow)) := rfl
    have hkeys : (annualize_NOAA (m1 :: rest)).map annualKey =
        (rest.foldl joinMonth (m1.map (fun r =>
          ({ LONGITUDE := r.LONGITUDE, LATITUDE := r.LATITUDE,
             vals := [r.value] } : JoinedRow)))).map joinedKey := by
      rw [hunfold, List.map_map]
      rfl
    have hbase : (m1.map (fun r =>
        ({ LONGITUDE := r.LONGITUDE, LATITUDE := r.LATITUDE,
           vals := [r.value] } : JoinedRow))).map joinedKey =
        m1.map gridKey := by
      rw [List.map_map]
      rfl
    have hblen : (m1.map (fun r =>
        ({ LONGITUDE := r.LONGITUDE, LATITUDE := r.LATITUDE,
           vals := [r.value] } : JoinedRow))).length = m1.length :=
      List.length_map _ _
    have hbnd : ((m1.map (fun r =>
        ({ LONGITUDE := r.LONGITUDE, LATITUDE := r.LATITUDE,
           vals := [r.value] } : JoinedRow))).map joinedKey).Nodup := by
      rw [hbase]
      exact hnd m1 (List.mem_cons_self _ _)
    obtain ⟨hnodup, hle1, hlerest⟩ := foldl_joinMonth_props rest _ hbnd
      (fun g hg => hnd g (List.mem_cons_of_mem _ hg))
    constructor
    · intro k
      rw [hkeys, mem_keys_foldl_joinMonth, hbase]
      constructor
      · rintro ⟨hm1, hrest⟩
        intro g hg
        rcases List.mem_cons.mp hg with rfl | hg
        · exact hm1
        · exact hrest g hg
      · intro hall
        exact ⟨hall m1 (List.mem_cons_self _ _),
          fun g hg => hall g (List.mem_cons_of_mem _ hg)⟩
    · intro g hg
      have hlen_out : (annualize_NOAA (m1 :: rest)).length =
          (rest.foldl joinMonth (m1.map (fun r =>
            ({ LONGITUDE := r.LONGITUDE, LATITUDE := r.LATITUDE,
               vals := [r.value] } : JoinedRow)))).length := by
        rw [hunfold, List.length_map]
      rcases List.mem_cons.mp hg with rfl | hg
      · rw [hlen_out, ← hblen]
        exact hle1
      · rw [hlen_out]
        exact hlerest g hg

/-- C5 witness: the twelve concrete monthly grids have 12 entries with
duplicate-free keys, and the annualized output obeys the intersection
law and the per-month row-count bound. -/
theorem annualize_NOAA_coverage_intersection_witness :
    (monthGrids.length = 12 ∧
      ∀ g ∈ monthGrids, (g.map gridKey).Nodup) ∧
    ((∀ k, k ∈ (annualize_NOAA monthGrids).map annualKey ↔
      ∀ g ∈ monthGrids, k ∈ g.map gridKey) ∧
    ∀ g ∈ monthGrids, (annualize_NOAA monthGrids).length ≤ g.length) :=
  ⟨⟨rfl, by decide⟩,
    annualize_NOAA_coverage_intersection monthGrids rfl (by decide)⟩

/-! Claim C6 support: country coverage of the composite inner join. -/

theorem mem_countries_joinVariable (base : List CompositeRow)
    (t : List CountryRow) (c : String) :
    c ∈ (joinVariable base t).map CompositeRow.country ↔
      c ∈ base.map CompositeRow.country ∧
        c ∈ t.map CountryRow.country := by
  simp only [joinVariable, mergeOn, List.mem_map, List.mem_flatMap,
    List.mem_filter, decide_eq_true_eq]
  constructor
  · rintro ⟨x, ⟨pr, ⟨a, ha, b, ⟨hbt, hbc⟩, rfl⟩, rfl⟩, rfl⟩
    exact ⟨⟨a, ha, rfl⟩, ⟨b, hbt, hbc⟩⟩
  · rintro ⟨⟨a, ha, rfl⟩, b, hb, hbc⟩
    exact ⟨_, ⟨(a, b), ⟨a, ha, b, ⟨hb, hbc⟩, rfl⟩, rfl⟩, rfl⟩

theorem mem_countries_foldl_joinVariable (rest : List (List CountryRow))
    (base : List CompositeRow) (c : String) :
    c ∈ (rest.foldl joinVariable base).map CompositeRow.country ↔
      c ∈ base.map CompositeRow.country ∧
        ∀ t ∈ rest, c ∈ t.map CountryRow.country := by
  induction rest generalizing base with
  | nil => simp
  | cons t rest ih =>
    simp only [List.foldl_cons, ih, mem_countries_joinVariable,
      List.mem_cons]
    constructor
    · rintro ⟨⟨hb, ht⟩, hrest⟩
      exact ⟨hb, fun g hg => by
        rcases hg with rfl | hg
        · exact ht
        · exact hrest g hg⟩
    · rintro ⟨hb, hall⟩
      exact ⟨⟨hb, hall t (Or.inl rfl)⟩, fun g hg => hall g (Or.inr hg)⟩

/-- C6: for every year, the composite climate table is the inner join on
country across the tracked variables' per-country aggregates, so its
country set is exactly the intersection of the per-variable country
sets, and its size is at most each (hence at most the minimum)
per-variable country-set size. -/
theorem load_climate_year_country_coverage
    (tables : List (List CountryRow)) (hne : tables ≠ []) :
    (∀ c, c ∈ countrySetC (_load_climate_year tables) ↔
      ∀ t ∈ tables, c ∈ countrySetV t) ∧
    ∀ t ∈ tables,
      (countrySetC (_load_climate_year tables)).card ≤
        (countrySetV t).card := by
  have hmem : ∀ c, c ∈ countrySetC (_load_climate_year tables) ↔
      ∀ t ∈ tables, c ∈ countrySetV t := by
    intro c
    match tables with
    | [] => exact absurd rfl hne
    | t :: rest =>
      simp only [_load_climate_year, countrySetC, countrySetV,
        List.mem_toFinset, mem_countries_foldl_joinVariable,
        List.map_map, List.mem_cons]
      constructor
      · rintro ⟨hb, hrest⟩
        intro g hg
        rcases hg with rfl | hg
        · simpa using hb
        · exact hrest g hg
      · intro hall
        exact ⟨by simpa using hall t (Or.inl rfl),
          fun g hg => hall g (Or.inr hg)⟩
  refine ⟨hmem, fun t ht => ?_⟩
  apply Finset.card_le_card
  intro c hc
  rw [countrySetV, List.mem_toFinset]
  have := (hmem c).mp hc t ht
  rwa [countrySetV, List.mem_toFinset] at this

/-- C6 witness: at concrete tables with country sets (Argentina, Brazil)
and (Brazil), the composite country set obeys the intersection law and
the cardinality bound. -/
theorem load_climate_year_country_coverage_witness :
    (([tableA, tableB] : List (List CountryRow)) ≠ []) ∧
    ((∀ c, c ∈ countrySetC (_load_climate_year [tableA, tableB]) ↔
      ∀ t ∈ [tableA, tableB], c ∈ countrySetV t) ∧
    ∀ t ∈ [tableA, tableB],
      (countrySetC (_load_climate_year [tableA, tableB])).card ≤
        (countrySetV t).card) :=
  ⟨by simp,
    load_climate_year_country_coverage [tableA, tableB] (by simp)⟩

/-! Claim C7 support: per-row min/mean/max ordering. -/

theorem length_mul_le_sum (l : List ℚ) (m : ℚ) (h : ∀ x ∈ l, m ≤ x) :
    (l.length : ℚ) * m ≤ l.sum := by
  induction l with
  | nil => simp
  | cons a t ih =>
    have ha := h a (List.mem_cons_self _ _)
    have ht := ih (fun x hx => h x (List.mem_cons_of_mem _ hx))
    simp only [List.length_cons, List.sum_cons]
    push_cast
    linarith

theorem sum_le_length_mul (l : List ℚ) (m : ℚ) (h : ∀ x ∈ l, x ≤ m) :
    l.sum ≤ (l.length : ℚ) * m := by
  induction l with
  | nil => simp
  | cons a t ih =>
    have ha := h a (List.mem_cons_self _ _)
    have ht := ih (fun x hx => h x (List.mem_cons_of_mem _ hx))
    simp only [List.length_cons, List.sum_cons]
    push_cast
    linarith

theorem rowMin_le_rowMean (l : List ℚ) (hl : l ≠ []) :
    rowMin l ≤ rowMean l := by
  match l with
  | a :: t =>
    have hmem : ∀ x ∈ a :: t, rowMin (a :: t) ≤ x := by
      intro x hx
      rcases List.mem_cons.mp hx with rfl | hx
      · exact (foldl_min_le_iff t x x).mpr (Or.inl le_rfl)
      · exact (foldl_min_le_iff t a x).mpr (Or.inr ⟨x, hx, le_rfl⟩)
    have hsum := length_mul_le_sum (a :: t) (rowMin (a :: t)) hmem
    have hlen : (0 : ℚ) < ((a :: t).length : ℚ) := by
      exact_mod_cast Nat.succ_pos t.length
    rw [rowMean, le_div_iff₀ hlen]
    linarith

theorem rowMean_le_rowMax (l : List ℚ) (hl : l ≠ []) :
    rowMean l ≤ rowMax l := by
  match l with
  | a :: t =>
    have hmem : ∀ x ∈ a :: t, x ≤ rowMax (a :: t) := by
      intro x hx
      rcases List.mem_cons.mp hx with rfl | hx
      · exact (le_foldl_max_iff t x x).mpr (Or.inl le_rfl)
      · exact (le_foldl_max_iff t a x).mpr (Or.inr ⟨x, hx, le_rfl⟩)
    have hsum := sum_le_length_mul (a :: t) (rowMax (a :: t)) hmem
    have hlen : (0 : ℚ) < ((a :: t).length : ℚ) := by
      exact_mod_cast Nat.succ_pos t.length
    rw [rowMean, div_le_iff₀ hlen]
    linarith

theorem foldl_joinMonth_vals_ne (rest : List (List GridRow))
    (base : List JoinedRow) (hb : ∀ j ∈ base, j.vals ≠ []) :
    ∀ j ∈ rest.foldl joinMonth base, j.vals ≠ [] := by
  induction rest generalizing base with
  | nil => exact hb
  | cons g t ih =>
    intro j hj
    refine ih (joinMonth base g) ?_ j hj
    intro j' hj'
    simp only [joinMonth, List.mem_map] at hj'
    obtain ⟨p, hp, rfl⟩ := hj'
    simp

/-- C7: every row of every AnnualGrid produced by the Annualizer
satisfies min ≤ mean ≤ max, each computed per row across the monthly
value columns; the `AnnualRow` output schema carries only LONGITUDE,
LATITUDE, min, mean, max — the monthly component columns are deleted
before the frame is returned. -/
theorem annualize_NOAA_min_le_mean_le_max
    (months : List (List GridRow)) (r : AnnualRow)
    (hr : r ∈ annualize_NOAA months) :
    r.amin ≤ r.amean ∧ r.amean ≤ r.amax := by
  match months with
  | [] => simp [annualize_NOAA] at hr
  | m1 :: rest =>
    have hunfold : annualize_NOAA (m1 :: rest) =
        (rest.foldl joinMonth (m1.map (fun r =>
          ({ LONGITUDE := r.LONGITUDE, LATITUDE := r.LATITUDE,
             vals := [r.value] } : JoinedRow)))).map (fun j =>
          ({ LONGITUDE := j.LONGITUDE, LATITUDE := j.LATITUDE,
             amin := rowMin j.vals, amean := rowMean j.vals,
             amax := rowMax j.vals } : AnnualRow)) := rfl
    rw [hunfold, List.mem_map] at hr
    obtain ⟨j, hj, rfl⟩ := hr
    have hne : j.vals ≠ [] := by
      refine foldl_joinMonth_vals_ne rest _ ?_ j hj
      intro j' hj'
      simp only [List.mem_map] at hj'
      obtain ⟨r', hr', rfl⟩ := hj'
      simp
    exact ⟨rowMin_le_rowMean j.vals hne, rowMean_le_rowMax j.vals hne⟩

set_option maxRecDepth 4000 in
/-- C7 witness: at the twelve concrete monthly grids, the single output
row carries min 1, the mean of 1..12, and max 12, and satisfies the
ordering. -/
theorem annualize_NOAA_min_le_mean_le_max_witness :
    ((⟨0, 0, 1, rowMean [1, 2, 3, 4, 5, 6, 7, 8, 9, 10, 11, 12], 12⟩ :
      AnnualRow) ∈ annualize_NOAA monthGrids) ∧
    ((1 : ℚ) ≤ rowMean [1, 2, 3, 4, 5, 6, 7, 8, 9, 10, 11, 12] ∧
      rowMean [1, 2, 3, 4, 5, 6, 7, 8, 9, 10, 11, 12] ≤ (12 : ℚ)) := by
  have hmem : (⟨0, 0, 1,
      rowMean [1, 2, 3, 4, 5, 6, 7, 8, 9, 10, 11, 12], 12⟩ :
      AnnualRow) ∈ annualize_NOAA monthGrids := by
    have heval : annualize_NOAA monthGrids =
        [⟨0, 0, 1, rowMean [1, 2, 3, 4, 5, 6, 7, 8, 9, 10, 11, 12],
          12⟩] := by
      rfl
    rw [heval]
    exact List.mem_singleton.mpr rfl
  exact ⟨hmem, annualize_NOAA_min_le_mean_le_max monthGrids _ hmem⟩

/-! Claim C8: batch drivers and missing inputs. -/

theorem runUnits_spec {υ ω : Type} (work : υ → Except PyErr ω)
    (us : List υ) (ls : List υ) (os : List (υ × ω))
    (h : ∀ u ∈ us, isMissingInput (work u) = true ∨
      ∃ w, work u = Except.ok w) :
    runUnits work us (ls, os) = Except.ok
      (ls ++ us.filter (fun u => isMissingInput (work u)),
       os ++ us.filterMap (fun u =>
         (okOutput (work u)).map (fun w => (u, w)))) := by
  induction us generalizing ls os with
  | nil => simp [runUnits]
  | cons u t ih =>
    have htail : ∀ u' ∈ t, isMissingInput (work u') = true ∨
        ∃ w, work u' = Except.ok w :=
      fun u' hu' => h u' (List.mem_cons_of_mem _ hu')
    cases hw : work u with
    | ok w =>
      simp only [runUnits, processUnit, hw]
      rw [ih _ _ htail]
      simp [isMissingInput, okOutput, hw, List.filter_cons,
        List.filterMap_cons]
    | error e =>
      have hmiss : isMissingInput (work u) = true := by
        rcases h u (List.mem_cons_self _ _) with hm | ⟨w, hok⟩
        · exact hm
        · rw [hok] at hw
          exact Except.noConfusion hw
      rw [hw] at hmiss
      match e, hmiss with
      | PyErr.fileNotFoundError p, _ =>
        simp only [runUnits, processUnit, hw]
        rw [ih _ _ htail]
        simp [isMissingInput, okOutput, hw, List.filter_cons,
          List.filterMap_cons]

/-- C8: in both batch drivers, whenever the per-unit work either
succeeds or fails only with a missing input file
(`FileNotFoundError`), the batch runs to completion over every
(variable, year[, month]) unit: the missing units are exactly the ones
reported in the skip log, no output file is written for them, and
output files are written exactly for the units whose inputs exist — a
missing input never terminates the batch. -/
theorem batch_drivers_skip_missing_inputs
    (workI : String × Nat × Nat → Except PyErr (List GridRow))
    (workA : String × Nat → Except PyErr (List AnnualRow))
    (hI : ∀ u ∈ interpolationUnits, isMissingInput (workI u) = true ∨
      ∃ w, workI u = Except.ok w)
    (hA : ∀ u ∈ annualizeUnits, isMissingInput (workA u) = true ∨
      ∃ w, workA u = Except.ok w) :
    interpolate_all_NOAA workI = Except.ok
      (interpolationUnits.filter (fun u => isMissingInput (workI u)),
       interpolationUnits.filterMap (fun u =>
         (okOutput (workI u)).map (fun w => (u, w)))) ∧
    annualize_all_NOAA workA = Except.ok
      (annualizeUnits.filter (fun u => isMissingInput (workA u)),
       annualizeUnits.filterMap (fun u =>
         (okOutput (workA u)).map (fun w => (u, w)))) := by
  constructor
  · have hrun := runUnits_spec workI interpolationUnits [] [] hI
    simpa [interpolate_all_NOAA] using hrun
  · have hrun := runUnits_spec workA annualizeUnits [] [] hA
    simpa [annualize_all_NOAA] using hrun

/-- C8 witness: with exactly one missing grouped file (TAVG 2000-05)
and one missing interpolated file (PRCP 1999), both batch drivers run
to completion, log the missing units and write the rest. -/
theorem batch_drivers_skip_missing_inputs_witness :
    ((∀ u ∈ interpolationUnits, isMissingInput (workI0 u) = true ∨
      ∃ w, workI0 u = Except.ok w) ∧
     (∀ u ∈ annualizeUnits, isMissingInput (workA0 u) = true ∨
      ∃ w, workA0 u = Except.ok w)) ∧
    (interpolate_all_NOAA workI0 = Except.ok
      (interpolationUnits.filter (fun u => isMissingInput (workI0 u)),
       interpolationUnits.filterMap (fun u =>
         (okOutput (workI0 u)).map (fun w => (u, w)))) ∧
    annualize_all_NOAA workA0 = Except.ok
      (annualizeUnits.filter (fun u => isMissingInput (workA0 u)),
       annualizeUnits.filterMap (fun u =>
         (okOutput (workA0 u)).map (fun w => (u, w))))) := by
  have hI : ∀ u ∈ interpolationUnits, isMissingInput (workI0 u) = true ∨
      ∃ w, workI0 u = Except.ok w := by
    intro u _
    by_cases h : u.1 = "TAVG" ∧ u.2.1 = 2000 ∧ u.2.2 = 5
    · left
      simp [workI0, h, isMissingInput]
    · right
      exact ⟨[], by simp [workI0, h]⟩
  have hA : ∀ u ∈ annualizeUnits, isMissingInput (workA0 u) = true ∨
      ∃ w, workA0 u = Except.ok w := by
    intro u _
    by_cases h : u.1 = "PRCP" ∧ u.2 = 1999
    · left
      simp [workA0, h, isMissingInput]
    · right
      exact ⟨[], by simp [workA0, h]⟩
  exact ⟨⟨hI, hA⟩,
    batch_drivers_skip_missing_inputs workI0 workA0 hI hA⟩

/-! Claim C9: atomic rejection of out-of-bounds CMIP5 files. -/

theorem check_bounds_ok (dimension : String) (v : ℚ)
    (h : inPhysicalBounds dimension v) :
    check_bounds v dimension = Except.ok true := by
  rcases h with ⟨hd, h1, h2⟩ | ⟨hd, h1, h2⟩
  · subst hd
    rw [check_bounds, if_pos rfl, if_pos ⟨h1, h2⟩]
  · subst hd
    rw [check_bounds, if_neg (by decide), if_pos rfl, if_pos ⟨h1, h2⟩]

theorem check_bounds_err (dimension : String) (v : ℚ)
    (h : ¬ inPhysicalBounds dimension v) :
    check_bounds v dimension =
      Except.error PyErr.dataOutOfBoundsError := by
  by_cases hd : dimension = "Celsius"
  · subst hd
    rw [check_bounds, if_pos rfl, if_neg]
    rintro ⟨h1, h2⟩
    exact h (Or.inl ⟨rfl, h1, h2⟩)
  · by_cases hm : dimension = "mm"
    · subst hm
      rw [check_bounds, if_neg (by decide), if_pos rfl, if_neg]
      rintro ⟨h1, h2⟩
      exact h (Or.inr ⟨rfl, h1, h2⟩)
    · rw [check_bounds, if_neg hd, if_neg hm]

theorem asc_loop_all_ok (fmt : ASCIIFormat) (xskip yskip : Nat)
    (xmin xmax ymin ymax : ℚ) (dimension : String) (scale : ℚ)
    (tokens : List (Option ℚ)) :
    ∀ (xn yn : Nat) (acc : List (ℚ × ℚ × ℚ)),
      (∀ p ∈ retained_loop fmt xskip yskip xmin xmax ymin ymax scale
        tokens xn yn, inPhysicalBounds dimension p.2.2) →
      asc_loop fmt xskip yskip xmin xmax ymin ymax dimension scale
        tokens xn yn acc =
      Except.ok (acc ++ retained_loop fmt xskip yskip xmin xmax ymin
        ymax scale tokens xn yn) := by
  induction tokens with
  | nil =>
    intro xn yn acc h
    simp [asc_loop, retained_loop]
  | cons t rest ih =>
    intro xn yn acc h
    cases t with
    | none =>
      by_cases hx : xn + 1 = fmt.ncols
      · simp only [retained_loop, hx, if_pos rfl, List.nil_append] at h
        simp only [asc_loop, retained_loop, hx, if_pos rfl,
          List.nil_append]
        exact ih 0 (yn + 1) acc h
      · simp only [retained_loop, if_neg hx, List.nil_append] at h
        simp only [asc_loop, retained_loop, if_neg hx, List.nil_append]
        exact ih (xn + 1) yn acc h
    | some raw =>
      cases hskip : (skip_this_ndx xn yn xskip yskip ||
          skip_this_pos (fmt.xllcorner + (xn : ℚ) * fmt.cellsize)
            (fmt.yllcorner + ((fmt.nrows : ℚ) - (yn : ℚ)) * fmt.cellsize)
            xmin xmax ymin ymax) with
      | true =>
        by_cases hx : xn + 1 = fmt.ncols
        · simp only [retained_loop, hskip, if_true, hx, if_pos rfl,
            List.nil_append] at h
          simp only [asc_loop, retained_loop, hskip, if_true, hx,
            if_pos rfl, List.nil_append]
          exact ih 0 (yn + 1) acc h
        · simp only [retained_loop, hskip, if_true, if_neg hx,
            List.nil_append] at h
          simp only [asc_loop, retained_loop, hskip, if_true, if_neg hx,
            List.nil_append]
          exact ih (xn + 1) yn acc h
      | false =>
        have hcb : check_bounds (raw * scale) dimension =
            Except.ok true := by
          apply check_bounds_ok
          have hp := fun hm => h (fmt.xllcorner + (xn : ℚ) * fmt.cellsize,
            fmt.yllcorner + ((fmt.nrows : ℚ) - (yn : ℚ)) * fmt.cellsize,
            raw * scale) hm
          by_cases hx : xn + 1 = fmt.ncols
          · refine hp ?_
            simp only [retained_loop, hskip, Bool.false_eq_true,
              if_false, hx, if_pos rfl]
            exact List.mem_cons_self _ _
          · refine hp ?_
            simp only [retained_loop, hskip, Bool.false_eq_true,
              if_false, if_neg hx]
            exact List.mem_cons_self _ _
        by_cases hx : xn + 1 = fmt.ncols
        · simp only [retained_loop, hskip, Bool.false_eq_true, if_false,
            hx, if_pos rfl, List.singleton_append] at h
          simp only [asc_loop, retained_loop, hskip, Bool.false_eq_true,
            if_false, hx, if_pos rfl, hcb, List.singleton_append]
          rw [ih 0 (yn + 1) _ (fun p hp => h p (List.mem_cons_of_mem _
            hp))]
          simp
        · simp only [retained_loop, hskip, Bool.false_eq_true, if_false,
            if_neg hx, List.singleton_append] at h
          simp only [asc_loop, retained_loop, hskip, Bool.false_eq_true,
            if_false, if_neg hx, hcb, List.singleton_append]
          rw [ih (xn + 1) yn _ (fun p hp => h p (List.mem_cons_of_mem _
            hp))]
          simp

theorem asc_loop_any_bad (fmt : ASCIIFormat) (xskip yskip : Nat)
    (xmin xmax ymin ymax : ℚ) (dimension : String) (scale : ℚ)
    (tokens : List (Option ℚ)) :
    ∀ (xn yn : Nat) (acc : List (ℚ × ℚ × ℚ)),
      (∃ p ∈ retained_loop fmt xskip yskip xmin xmax ymin ymax scale
        tokens xn yn, ¬ inPhysicalBounds dimension p.2.2) →
      asc_loop fmt xskip yskip xmin xmax ymin ymax dimension scale
        tokens xn yn acc =
      Except.error PyErr.dataOutOfBoundsError := by
  induction tokens with
  | nil =>
    intro xn yn acc h
    simp [retained_loop] at h
  | cons t rest ih =>
    intro xn yn acc h
    cases t with
    | none =>
      by_cases hx : xn + 1 = fmt.ncols
      · simp only [retained_loop, hx, if_pos rfl, List.nil_append] at h
        simp only [asc_loop, hx, if_pos rfl]
        exact ih 0 (yn + 1) acc h
      · simp only [retained_loop, if_neg hx, List.nil_append] at h
        simp only [asc_loop, if_neg hx]
        exact ih (xn + 1) yn acc h
    | some raw =>
      cases hskip : (skip_this_ndx xn yn xskip yskip ||
          skip_this_pos (fmt.xllcorner + (xn : ℚ) * fmt.cellsize)
            (fmt.yllcorner + ((fmt.nrows : ℚ) - (yn : ℚ)) * fmt.cellsize)
            xmin xmax ymin ymax) with
      | true =>
        by_cases hx : xn + 1 = fmt.ncols
        · simp only [retained_loop, hskip, if_true, hx, if_pos rfl,
            List.nil_append] at h
          simp only [asc_loop, hskip, if_true, hx, if_pos rfl]
          exact ih 0 (yn + 1) acc h
        · simp only [retained_loop, hskip, if_true, if_neg hx,
            List.nil_append] at h
          simp only [asc_loop, hskip, if_true, if_neg hx]
          exact ih (xn + 1) yn acc h
      | false =>
        by_cases hb : inPhysicalBounds dimension (raw * scale)
        · have hcb := check_bounds_ok dimension (raw * scale) hb
          by_cases hx : xn + 1 = fmt.ncols
          · simp only [retained_loop, hskip, Bool.false_eq_true,
              if_false, hx, if_pos rfl, List.singleton_append] at h
            simp only [asc_loop, hskip, Bool.false_eq_true, if_false,
              hx, if_pos rfl, hcb]
            obtain ⟨p, hp, hbad⟩ := h
            rcases List.mem_cons.mp hp with rfl | hp'
            · exact absurd hb hbad
            · exact ih 0 (yn + 1) _ ⟨p, hp', hbad⟩
          · simp only [retained_loop, hskip, Bool.false_eq_true,
              if_false, if_neg hx, List.singleton_append] at h
            simp only [asc_loop, hskip, Bool.false_eq_true, if_false,
              if_neg hx, hcb]
            obtain ⟨p, hp, hbad⟩ := h
            rcases List.mem_cons.mp hp with rfl | hp'
            · exact absurd hb hbad
            · exact ih (xn + 1) yn _ ⟨p, hp', hbad⟩
        · have hcb := check_bounds_err dimension (raw * scale) hb
          by_cases hx : xn + 1 = fmt.ncols
          · simp only [asc_loop, hskip, Bool.false_eq_true, if_false,
              hx, if_pos rfl, hcb]
          · simp only [asc_loop, hskip, Bool.false_eq_true, if_false,
              if_neg hx, hcb]

/-- C9: converting a CMIP5 ASCII file whose retained (downsampled,
in-window, scaled) values include one outside the plausible bounds for
its dimension ends with the whole file rejected — the
`DataOutOfBoundsError` raised by `check_bounds` is caught by
`asc_to_filtered_csv` and no output CSV is produced at all; if every
retained value is in bounds, the complete output file is written. -/
theorem asc_to_filtered_csv_atomic (fmt : ASCIIFormat)
    (tokens : List (Option ℚ)) (xskip yskip : Nat) (label : String)
    (xmin xmax ymin ymax : ℚ) (dimension : String) (scale : ℚ)
    (hdim : DIMENSION_LOOKUP.lookup (pyLower label) = some dimension)
    (hscale : SCALE_LOOKUP.lookup (pyLower label) = some scale) :
    ((∃ p ∈ retained_loop fmt xskip yskip xmin xmax ymin ymax scale
        tokens 0 0, ¬ inPhysicalBounds dimension p.2.2) →
      asc_to_filtered_csv fmt tokens xskip yskip label xmin xmax ymin
        ymax = Except.ok none) ∧
    ((∀ p ∈ retained_loop fmt xskip yskip xmin xmax ymin ymax scale
        tokens 0 0, inPhysicalBounds dimension p.2.2) →
      asc_to_filtered_csv fmt tokens xskip yskip label xmin xmax ymin
        ymax = Except.ok (some ⟨label, retained_loop fmt xskip yskip
          xmin xmax ymin ymax scale tokens 0 0⟩)) := by
  constructor
  · intro hex
    have herr := asc_loop_any_bad fmt xskip yskip xmin xmax ymin ymax
      dimension scale tokens 0 0 [] hex
    simp only [asc_to_filtered_csv, hdim, hscale, asc_to_array, herr]
  · intro hok
    have hloop := asc_loop_all_ok fmt xskip yskip xmin xmax ymin ymax
      dimension scale tokens 0 0 [] hok
    simp only [asc_to_filtered_csv, hdim, hscale, asc_to_array, hloop,
      List.nil_append]

/-- C9 witness: one retained value of -100 Celsius (raw token -1000 at
scale 1/10) makes the whole conversion produce no output file. -/
theorem asc_to_filtered_csv_atomic_witness :
    (DIMENSION_LOOKUP.lookup (pyLower "tmin") = some "Celsius" ∧
     SCALE_LOOKUP.lookup (pyLower "tmin") = some (1/10 : ℚ) ∧
     ∃ p ∈ retained_loop fmt0 0 0 (-180) 180 (-90) 90 (1/10)
       [some (-1000)] 0 0, ¬ inPhysicalBounds "Celsius" p.2.2) ∧
    asc_to_filtered_csv fmt0 [some (-1000)] 0 0 "tmin" (-180) 180 (-90)
      90 = Except.ok none := by
  have hdim : DIMENSION_LOOKUP.lookup (pyLower "tmin") =
      some "Celsius" := by decide
  have hscale : SCALE_LOOKUP.lookup (pyLower "tmin") =
      some (1/10 : ℚ) := by rfl
  have hret : retained_loop fmt0 0 0 (-180) 180 (-90) 90 (1/10)
      [some (-1000)] 0 0 = [(0, 1, -100)] := by
    norm_num [retained_loop, fmt0, skip_this_ndx, skip_this_pos]
  have hbad : ∃ p ∈ retained_loop fmt0 0 0 (-180) 180 (-90) 90 (1/10)
      [some (-1000)] 0 0, ¬ inPhysicalBounds "Celsius" p.2.2 := by
    rw [hret]
    exact ⟨(0, 1, -100), List.mem_singleton.mpr rfl, by decide⟩
  exact ⟨⟨hdim, hscale, hbad⟩,
    (asc_to_filtered_csv_atomic fmt0 [some (-1000)] 0 0 "tmin" (-180)
      180 (-90) 90 "Celsius" (1/10) hdim hscale).1 hbad⟩

/-! Claim C10: files left on disk are never header-only. -/

/-- C10: a grouped-by-period output file left on disk always holds at
least one data row — `_make_one_group` deletes the just-opened file
exactly when no record matches the variable and period — and a trimmed
per-station file left on disk always holds at least one data row, the
rows at or after the cutoff date, `_trim_open_csv` removing the
zero-row file it just wrote; so an empty period surfaces downstream as
a missing file, not as a header-only file. -/
theorem group_and_trim_files_never_empty :
    (∀ (var : String) (year month : Nat)
      (sources : List (List SourceRow)),
      (_make_one_group var year month sources = none ↔
        ∀ rows ∈ sources, ∀ r ∈ rows,
          _to_be_written var r (date_str_of year month) = false) ∧
      ∀ f, _make_one_group var year month sources = some f → f ≠ []) ∧
    (∀ (source_fields : List String) (source_rows : List SourceRow)
      (min_date : String) (id_fields data_fields : List String)
      (res : Nat × List String) (file : Option (List SourceRow)),
      _trim_open_csv source_fields source_rows min_date id_fields
        data_fields = Except.ok (res, file) →
      (∀ l, file = some l → l ≠ [] ∧
        l = source_rows.filter (fun r => decide (min_date ≤ r.DATE))) ∧
      (source_rows.filter (fun r => decide (min_date ≤ r.DATE)) = [] →
        file = none)) := by
  constructor
  · intro var year month sources
    have hiff : groupRows var (date_str_of year month) sources = [] ↔
        ∀ rows ∈ sources, ∀ r ∈ rows,
          _to_be_written var r (date_str_of year month) = false := by
      simp only [groupRows, List.flatMap_eq_nil_iff, List.map_eq_nil_iff,
        List.filter_eq_nil_iff, Bool.not_eq_true]
    by_cases hz :
        (groupRows var (date_str_of year month) sources).length = 0
    · have hnone : _make_one_group var year month sources = none := by
        simp only [_make_one_group]
        rw [if_pos hz]
      constructor
      · rw [hnone]
        exact ⟨fun _ => hiff.mp (List.length_eq_zero.mp hz),
          fun _ => rfl⟩
      · intro f hf
        rw [hnone] at hf
        exact Option.noConfusion hf
    · have hsome : _make_one_group var year month sources =
          some (groupRows var (date_str_of year month) sources) := by
        simp only [_make_one_group]
        rw [if_neg hz]
      constructor
      · rw [hsome]
        constructor
        · intro h
          exact Option.noConfusion h
        · intro hall
          exact absurd (hiff.mpr hall) (fun h => hz (by rw [h]; rfl))
      · intro f hf
        rw [hsome, Option.some.injEq] at hf
        intro hfnil
        rw [← hf] at hfnil
        exact hz (by rw [hfnil]; rfl)
  · intro source_fields source_rows min_date id_fields data_fields res
      file hok
    by_cases h1 : id_fields.filter
        (fun f => !source_fields.contains f) ≠ []
    · rw [show _trim_open_csv source_fields source_rows min_date
          id_fields data_fields = Except.error PyErr.valueError from by
        simp only [_trim_open_csv]
        rw [if_pos h1]] at hok
      exact Except.noConfusion hok
    · by_cases h2 : source_fields.filter
          (fun f => data_fields.contains f) = []
      · rw [show _trim_open_csv source_fields source_rows min_date
            id_fields data_fields = Except.ok ((0, []), none) from by
          simp only [_trim_open_csv]
          rw [if_neg h1, if_pos h2]] at hok
        simp only [Except.ok.injEq, Prod.mk.injEq] at hok
        obtain ⟨-, hfile⟩ := hok
        rw [← hfile]
        exact ⟨fun l hl => Option.noConfusion hl, fun _ => rfl⟩
      · by_cases h3 : (source_rows.filter
            (fun r => decide (min_date ≤ r.DATE))).length = 0
        · rw [show _trim_open_csv source_fields source_rows min_date
              id_fields data_fields = Except.ok ((0,
                source_fields.filter (fun f => data_fields.contains f)),
                none) from by
            simp only [_trim_open_csv]
            rw [if_neg h1, if_neg h2, if_pos h3]] at hok
          simp only [Except.ok.injEq, Prod.mk.injEq] at hok
          obtain ⟨-, hfile⟩ := hok
          rw [← hfile]
          exact ⟨fun l hl => Option.noConfusion hl, fun _ => rfl⟩
        · rw [show _trim_open_csv source_fields source_rows min_date
              id_fields data_fields = Except.ok
                (((source_rows.filter
                    (fun r => decide (min_date ≤ r.DATE))).length,
                  source_fields.filter (fun f => data_fields.contains f)),
                 some (source_rows.filter
                   (fun r => decide (min_date ≤ r.DATE)))) from by
            simp only [_trim_open_csv]
            rw [if_neg h1, if_neg h2, if_neg h3]] at hok
          simp only [Except.ok.injEq, Prod.mk.injEq] at hok
          obtain ⟨-, hfile⟩ := hok
          rw [← hfile]
          constructor
          · intro l hl
            rw [Option.some.injEq] at hl
            subst hl
            refine ⟨?_, rfl⟩
            intro hnil
            exact h3 (by rw [hnil]; rfl)
          · intro hnil
            exact absurd (by rw [hnil]; rfl) h3

/-- C10 witness: a grouped file with one matching TAVG record for
1995-01 is written with exactly that one data row, and a trim run whose
input has no rows at all leaves no output file on disk. -/
theorem group_and_trim_files_never_empty_witness :
    (_make_one_group "TAVG" 1995 1 [[row0]] =
      some [({ LONGITUDE := "10.0", LATITUDE := "20.0",
               value := "5.0" } : GroupRow)] ∧
     ([({ LONGITUDE := "10.0", LATITUDE := "20.0",
          value := "5.0" } : GroupRow)] ≠ [])) ∧
    (_trim_open_csv trimFields0 [] "1995-01" idFields0 dataFields0 =
      Except.ok ((0, ["TAVG"]), none) ∧
     (none : Option (List SourceRow)) = none) := by
  have heval1 : _make_one_group "TAVG" 1995 1 [[row0]] =
      some [({ LONGITUDE := "10.0", LATITUDE := "20.0",
               value := "5.0" } : GroupRow)] := by decide
  have heval2 : _trim_open_csv trimFields0 [] "1995-01" idFields0
      dataFields0 = Except.ok ((0, ["TAVG"]), none) := rfl
  refine ⟨⟨heval1, ?_⟩, heval2, ?_⟩
  · exact (group_and_trim_files_never_empty.1 "TAVG" 1995 1
      [[row0]]).2 _ heval1
  · exact ((group_and_trim_files_never_empty.2 trimFields0 []
      "1995-01" idFields0 dataFields0 (0, ["TAVG"]) none) heval2).2 rfl
